import Mathlib

/-!
# Verification of the etw-gecko event-correlation engine

A shallow embedding of `src/etw-gecko/src/main.rs` and
`src/etw-gecko/src/timestamp_converter.rs`. Rust `u64` values are modelled
as `Nat`; where the source performs `u64` arithmetic that can wrap, the
embedding reduces modulo `2 ^ 64`; `u64::saturating_sub` is `Nat` subtraction
(which is truncated). Fallible operations (Rust `unwrap` on a missing map
entry, i.e. a panic) are modelled with `Option`: `none` is a panic.

The helper modules `context_switch.rs`, `lib_mappings.rs`, `types.rs` and
`unresolved_samples.rs` are declared by `main.rs` but their sources are not
part of this repository snapshot; where a definition must come from one of
them it is modelled from the specification document and marked
"Modelled from the spec".
-/

/-- Two to the sixty-fourth: the modulus of Rust `u64` arithmetic. -/
def U64MOD : Nat := 18446744073709551616

/-- `i32::MAX`, the bound used by `i32::try_from` on a `u64`. -/
def I32MAX : Nat := 2147483647

/-- Modelled from the source `types.rs` usage in `main.rs` (the `types`
module itself is not in the snapshot): a stack frame is user- or
kernel-mode. -/
inductive StackMode where
  | User : StackMode
  | Kernel : StackMode
deriving DecidableEq, Repr

/-- Modelled from the source `types.rs` usage in `main.rs`: a frame is an
instruction pointer (top of stack) or a return address, tagged with a mode. -/
inductive StackFrame where
  | InstructionPointer (addr : Nat) (mode : StackMode) : StackFrame
  | ReturnAddress (addr : Nat) (mode : StackMode) : StackFrame
deriving DecidableEq, Repr

/-- The address carried by a frame. -/
def StackFrame.addr : StackFrame → Nat
  | .InstructionPointer a _ => a
  | .ReturnAddress a _ => a

/-- The mode tag carried by a frame. -/
def StackFrame.mode : StackFrame → StackMode
  | .InstructionPointer _ m => m
  | .ReturnAddress _ m => m

/-- Modelled from the spec (§3, "Off-CPU sample group"): the group
synthesized by the context-switch handler; `context_switch.rs` is not in the
snapshot. Fields named as destructured in `main.rs`. -/
structure OffCpuSampleGroup where
  begin_timestamp : Nat
  end_timestamp : Nat
  sample_count : Nat
deriving DecidableEq, Repr

/-- Modelled from the spec (§4.2): the per-thread context-switch state.
`main.rs` only ever consumes the accumulated on-CPU raw-tick total
(`consume_cpu_delta`) and asks for a not-yet-attached off-CPU group
(`handle_on_cpu_sample`); `context_switch.rs` is not in the snapshot. -/
structure ThreadContextSwitchData where
  accumulated_on_cpu_ticks : Nat
  pending_off_cpu_group : Option OffCpuSampleGroup
deriving DecidableEq, Repr

/-- Modelled from the spec (§4.2 `consume_cpu_delta`): "returns accumulated
on-CPU nanoseconds and zeros it" (the accumulator is in raw ticks; `main.rs`
multiplies the result by the raw-to-ns factor). -/
def consume_cpu_delta (d : ThreadContextSwitchData) : Nat × ThreadContextSwitchData :=
  (d.accumulated_on_cpu_ticks, { d with accumulated_on_cpu_ticks := 0 })

/-- Modelled from the spec (§4.2 `on_sample`): "returns any off-CPU group
synthesized by a prior switch-in whose group has not yet been attached;
otherwise none". -/
def handle_on_cpu_sample (d : ThreadContextSwitchData) :
    Option OffCpuSampleGroup × ThreadContextSwitchData :=
  (d.pending_off_cpu_group, { d with pending_off_cpu_group := none })

/-- `main.rs` lines 82-90: an on- or off-cpu sample for which the user stack
is not known yet; consumed once the user stack arrives. -/
structure PendingStack where
  timestamp : Nat
  kernel_stack : Option (List StackFrame)
  off_cpu_sample_group : Option OffCpuSampleGroup
  on_cpu_sample_cpu_delta : Option Nat
deriving DecidableEq, Repr

/-- The observable effect of one `add_sample` call made by the user-stack
consumption loop (`main.rs` lines 475-487): the raw trigger timestamp, the
cpu delta in nanoseconds, the sample weight, and the frame list handed to
the unresolved-samples buffer (leaf first, exactly as the Rust `stack`
vector is ordered before `add_sample` reverses it for interning). -/
structure Sample where
  timestamp : Nat
  cpu_delta : Nat
  weight : Int
  stack : List StackFrame
deriving DecidableEq, Repr

/-- `main.rs` lines 65-70. -/
def is_kernel_address (ip : Nat) (pointer_size : Nat) : Bool :=
  if pointer_size = 4 then
    decide (ip ≥ 0x80000000)
  else
    decide (ip ≥ 0xFFFF000000000000)

/-- `main.rs` lines 72-78. -/
def stack_mode_for_address (address : Nat) (pointer_size : Nat) : StackMode :=
  if is_kernel_address address pointer_size then
    StackMode.Kernel
  else
    StackMode.User

/-- `main.rs` lines 449-458: build the frame list of a stack-walk event from
its address words. The first address becomes an `InstructionPointer`; every
further address becomes a `ReturnAddress` whose mode is computed from
`first_frame_address` (not from its own address), with pointer size
hard-coded to 8. An event with no addresses makes the handler return early;
that case is represented by the empty frame list. -/
def parseStackFrames (addrs : List Nat) : List StackFrame :=
  match addrs with
  | [] => []
  | first_frame_address :: rest =>
      StackFrame.InstructionPointer first_frame_address
          (stack_mode_for_address first_frame_address 8) ::
        rest.map (fun frame_address =>
          StackFrame.ReturnAddress frame_address
            (stack_mode_for_address first_frame_address 8))

/-- `main.rs` lines 499-513 (the `off_cpu_sample_group` branch of the
consumption loop): consume the accumulated cpu delta, emit one sample at the
group's begin timestamp with that delta and weight 1 and, when
`sample_count > 1`, a rest sample at the end timestamp with zero delta and
weight `i32::try_from(sample_count - 1).unwrap_or(0) * 1`. Returns the
updated context-switch state and the emitted samples. -/
def offCpuGroupSamples (raw_to_ns_factor : Nat) (csd : ThreadContextSwitchData)
    (userStack : List StackFrame) (g : OffCpuSampleGroup) :
    ThreadContextSwitchData × List Sample :=
  let consumed := consume_cpu_delta csd
  let cpu_delta_raw := consumed.1
  let csd' := consumed.2
  let cpu_delta := cpu_delta_raw * raw_to_ns_factor % U64MOD
  let first : Sample := ⟨g.begin_timestamp, cpu_delta, 1, userStack⟩
  if g.sample_count > 1 then
    let weight : Int :=
      (if g.sample_count - 1 ≤ I32MAX then (g.sample_count - 1 : Int) else 0) * 1
    (csd', [first, ⟨g.end_timestamp, 0, weight, userStack⟩])
  else
    (csd', [first])

/-- `main.rs` lines 516-524 (the `on_cpu_sample_cpu_delta` branch): emit one
sample at the entry's trigger timestamp with the stored delta and weight 1;
if a kernel stack was attached, the frame list is the kernel stack extended
by the user stack. -/
def onCpuSamples (userStack : List StackFrame) (p : PendingStack) : List Sample :=
  match p.on_cpu_sample_cpu_delta with
  | none => []
  | some cpu_delta =>
      match p.kernel_stack with
      | some combined_stack => [⟨p.timestamp, cpu_delta, 1, combined_stack ++ userStack⟩]
      | none => [⟨p.timestamp, cpu_delta, 1, userStack⟩]

/-- `main.rs` lines 491-524: the body of the consumption loop for one popped
pending-stack entry. -/
def processPendingStack (raw_to_ns_factor : Nat) (csd : ThreadContextSwitchData)
    (userStack : List StackFrame) (p : PendingStack) :
    ThreadContextSwitchData × List Sample :=
  let offPart :=
    match p.off_cpu_sample_group with
    | none => (csd, [])
    | some g => offCpuGroupSamples raw_to_ns_factor csd userStack g
  (offPart.1, offPart.2 ++ onCpuSamples userStack p)

/-- `main.rs` lines 489-525: "Use this user stack for all pending stacks
from this thread" — pop entries from the front of the queue while the front
entry's trigger timestamp is `≤` the stack-walk event's timestamp, emitting
each popped entry's samples. Returns the consumed entries (in pop order),
the remaining queue, the final context-switch state and all emitted samples. -/
def consumePendingStacks (raw_to_ns_factor : Nat) (userStack : List StackFrame)
    (eventTimestamp : Nat) :
    List PendingStack → ThreadContextSwitchData →
    List PendingStack × List PendingStack × ThreadContextSwitchData × List Sample
  | [], csd => ([], [], csd, [])
  | p :: rest, csd =>
      if p.timestamp ≤ eventTimestamp then
        let step := processPendingStack raw_to_ns_factor csd userStack p
        let tail := consumePendingStacks raw_to_ns_factor userStack eventTimestamp rest step.1
        (p :: tail.1, tail.2.1, tail.2.2.1, step.2 ++ tail.2.2.2)
      else
        ([], p :: rest, csd, [])

/-- `timestamp_converter.rs` lines 3-9. -/
structure TimestampConverter where
  reference_raw : Nat
  raw_to_ns_factor : Nat
deriving DecidableEq, Repr

/-- `timestamp_converter.rs` lines 12-16:
`raw.saturating_sub(self.reference_raw) * self.raw_to_ns_factor`, a `u64`
product (reduced mod `2 ^ 64`). -/
def TimestampConverter.convert_raw (c : TimestampConverter) (raw : Nat) : Nat :=
  (raw - c.reference_raw) * c.raw_to_ns_factor % U64MOD

/-- `timestamp_converter.rs` lines 18-22:
`(time_us * 1000).saturating_sub(self.reference_raw * self.raw_to_ns_factor)`,
with both `u64` products reduced mod `2 ^ 64`. -/
def TimestampConverter.convert_us (c : TimestampConverter) (time_us : Nat) : Nat :=
  time_us * 1000 % U64MOD - c.reference_raw * c.raw_to_ns_factor % U64MOD

/-- The `GUID` carried by a `DbgID_RSDS` event (from `etw_reader`). -/
structure GUIDm where
  data1 : Nat
  data2 : Nat
  data3 : Nat
  data4 : List Nat
deriving DecidableEq, Repr

/-- The `fxprof_processed_profile::LibraryInfo` record as constructed in
`main.rs` lines 713-722. The debug id is kept as its components
`(guid, age)` and the code id as the pair `(TimeDateStamp, ImageSize)`
that the source formats into a hex string. -/
structure LibraryInfo where
  name : String
  debug_name : String
  path : String
  code_id : Option (Nat × Nat)
  symbol_table : Option Unit
  debug_path : String
  debug_id : GUIDm × Nat
  arch : Option String
deriving DecidableEq, Repr

/-- Modelled from the spec (§4.3): a lib-mapping op is
`Add(start_avma, end_avma, relative_address_at_start, info)` or
`Remove(start_avma)`; `lib_mappings.rs` is not in the snapshot. The `info`
field holds the library handle (`LibMappingInfo::new_lib(lib_handle)`). -/
inductive LibMappingOp where
  | Add (start_avma end_avma relative_address_at_start : Nat) (info : Nat) : LibMappingOp
  | Remove (start_avma : Nat) : LibMappingOp
deriving DecidableEq, Repr

/-- An `add_thread` call recorded by the profile sink. -/
structure AddedThread where
  handle : Nat
  process : Nat
  tid : Nat
  start_time : Nat
  is_main : Bool
deriving DecidableEq, Repr

/-- An `add_sample` call recorded by the profile sink (only the idle-thread
path of `main.rs` calls `profile.add_sample` directly; its frame list is the
single label frame recorded here). -/
structure ProfileSample where
  thread : Nat
  timestamp : Nat
  label : String
  cpu_delta : Nat
  weight : Int
deriving DecidableEq, Repr

/-- The profile builder, an external collaborator (spec §6.2): an opaque sink
modelled as append-only logs of the operations invoked on it, with one fresh
counter for the opaque handles it returns. -/
structure Profile where
  next_handle : Nat
  added_processes : List (Nat × String × Nat × Nat)
  added_threads : List AddedThread
  added_libs : List (Nat × LibraryInfo)
  kernel_lib_mappings : List (Nat × Nat × Nat × Nat)
  samples : List ProfileSample
  thread_names : List (Nat × String)

/-- The sink with no operations recorded yet. -/
def Profile.empty : Profile :=
  ⟨0, [], [], [], [], [], []⟩

/-- Sink operation `add_process`: returns a fresh process handle. -/
def Profile.add_process (p : Profile) (name : String) (pid start_time : Nat) :
    Nat × Profile :=
  (p.next_handle,
   { p with next_handle := p.next_handle + 1,
            added_processes := p.added_processes ++ [(p.next_handle, name, pid, start_time)] })

/-- Sink operation `add_thread`: returns a fresh thread handle. -/
def Profile.add_thread (p : Profile) (process tid start_time : Nat) (is_main : Bool) :
    Nat × Profile :=
  (p.next_handle,
   { p with next_handle := p.next_handle + 1,
            added_threads := p.added_threads ++ [⟨p.next_handle, process, tid, start_time, is_main⟩] })

/-- Sink operation `add_lib`: returns a fresh library handle. -/
def Profile.add_lib (p : Profile) (info : LibraryInfo) : Nat × Profile :=
  (p.next_handle,
   { p with next_handle := p.next_handle + 1,
            added_libs := p.added_libs ++ [(p.next_handle, info)] })

/-- Sink operation `set_thread_name`. -/
def Profile.set_thread_name (p : Profile) (handle : Nat) (name : String) : Profile :=
  { p with thread_names := p.thread_names ++ [(handle, name)] }

/-- Sink operation `add_sample` as used on the idle path: one label frame,
zero cpu delta, weight 1. -/
def Profile.add_sample (p : Profile) (thread timestamp : Nat) (label : String)
    (cpu_delta : Nat) (weight : Int) : Profile :=
  { p with samples := p.samples ++ [⟨thread, timestamp, label, cpu_delta, weight⟩] }

/-- `main.rs` lines 97-105: per-thread engine state. -/
structure ThreadState where
  handle : Nat
  merge_name : Option String
  pending_stacks : List PendingStack
  context_switch_data : ThreadContextSwitchData
  thread_id : Nat

/-- `main.rs` lines 107-118: `ThreadState::new`. -/
def ThreadState.new (handle tid : Nat) : ThreadState :=
  { handle := handle,
    pending_stacks := [],
    context_switch_data := ⟨0, none⟩,
    merge_name := none,
    thread_id := tid }

/-- `main.rs` lines 143-149: per-process engine state. -/
structure ProcessState where
  process_handle : Nat
  unresolved_samples : List Sample
  regular_lib_mapping_ops : List (Nat × LibMappingOp)
  main_thread_handle : Option Nat
  pending_libraries : Nat → Option LibraryInfo

/-- `main.rs` lines 151-160: `ProcessState::new`. -/
def ProcessState.new (process_handle : Nat) : ProcessState :=
  { process_handle := process_handle,
    unresolved_samples := [],
    regular_lib_mapping_ops := [],
    main_thread_handle := none,
    pending_libraries := fun _ => none }

/-- Point update of a map modelled as a function into `Option`. -/
def upd {α : Type} (m : Nat → Option α) (k : Nat) (v : α) : Nat → Option α :=
  fun k' => if k' = k then some v else m k'

/-- Point removal from a map modelled as a function into `Option`. -/
def mapRemove {α : Type} (m : Nat → Option α) (k : Nat) : Nat → Option α :=
  fun k' => if k' = k then none else m k'

/-- The mutable state of `main` that the dispatcher's handlers read and
write (the subset the claims depend on): the thread and process registries,
the target-pid set, the two pending-library maps, the `libs` metadata map,
the sink, the event counters and the timestamp converter. -/
structure EngineState where
  threads : Nat → Option ThreadState
  processes : Nat → Option ProcessState
  process_targets : List Nat
  kernel_pending_libraries : Nat → Option LibraryInfo
  libs : Nat → Option (String × Nat × Nat)
  profile : Profile
  sample_count : Nat
  dropped_sample_count : Nat
  stack_sample_count : Nat
  timestamp_converter : TimestampConverter

/-- The state right after CLI parsing: empty registries, the dummy
timestamp converter (`main.rs` lines 226-229), and the given target set. -/
def initialEngineState (targets : List Nat) (profile : Profile) : EngineState :=
  { threads := fun _ => none,
    processes := fun _ => none,
    process_targets := targets,
    kernel_pending_libraries := fun _ => none,
    libs := fun _ => none,
    profile := profile,
    sample_count := 0,
    dropped_sample_count := 0,
    stack_sample_count := 0,
    timestamp_converter := ⟨0, 1⟩ }

/-- `main.rs` lines 215-220: in merge-threads mode a synthetic global
process (pid 1) and global thread (tid 1) are created; otherwise neither
exists. Returns `(global_thread, global_process, profile)`. -/
def initGlobals (merge_threads : Bool) (profile : Profile) :
    Option Nat × Option Nat × Profile :=
  if merge_threads then
    let ap := Profile.add_process profile "All processes" 1 0
    let at' := Profile.add_thread ap.2 ap.1 1 0 true
    (some at'.1, some ap.1, at'.2)
  else
    (none, none, profile)

/-- Rust `str::contains` for a substring pattern. -/
def containsSubstr (hay needle : String) : Bool :=
  hay.toList.tails.any (fun t => needle.toList.isPrefixOf t)

/-- Rust `str::parse::<u32>`: a non-empty all-digit string whose decimal
value fits in a `u32` parses to that value; anything else fails. -/
def parseU32 (s : String) : Option Nat :=
  let cs := s.toList
  if cs ≠ [] ∧ cs.all (fun c => c.isDigit) then
    let v := cs.foldl (fun n c => n * 10 + (c.toNat - 48)) 0
    if v < 4294967296 then some v else none
  else
    none

/-- `main.rs` lines 187-197: the positional process selector. A numeric
argument becomes a target pid; anything else becomes the target image name.
Returns `(process_targets, process_target_name)`. -/
def parseProcessSelector (process_filter : String) : List Nat × Option String :=
  match parseU32 process_filter with
  | some process_id => ([process_id], none)
  | none => ([], some process_filter)

/-- `main.rs` lines 393-416 (`MSNT_SystemTrace/Process/Start` and
`Process/DCStart`): only when an image-name target is configured and the
image file name contains it is the pid enrolled and a process record
created (under the global process handle in merge mode). -/
def processStartHandler (process_target_name : Option String) (global_process : Option Nat)
    (st : EngineState) (raw_ts pid : Nat) (image_file_name : String) : EngineState :=
  match process_target_name with
  | none => st
  | some target =>
      if containsSubstr image_file_name target then
        let pr :=
          match global_process with
          | some g => (g, st.profile)
          | none =>
              Profile.add_process st.profile image_file_name pid
                (st.timestamp_converter.convert_raw raw_ts)
        { st with process_targets := st.process_targets ++ [pid],
                  processes := upd st.processes pid (ProcessState.new pr.1),
                  profile := pr.2 }
      else
        st

/-- `main.rs` lines 305-373 (`MSNT_SystemTrace/Thread/Start` and
`Thread/DCStart`): events outside the target filter are ignored; in merge
mode the global thread handle is reused; otherwise the process record is
looked up (`unwrap`: `none` = panic if absent), a thread is added to the
sink with `is_main` true exactly when the process has no main thread yet,
and in that case the new handle is installed as the main thread. The new
`ThreadState` clobbers any existing record under the same tid; a non-empty
`ThreadName` field sets the sink name (unless the handle is the global one)
and the merge name. -/
def threadStartHandler (global_thread : Option Nat) (st : EngineState)
    (raw_ts tid pid : Nat) (thread_name : Option String) : Option EngineState :=
  if ¬ st.process_targets.contains pid then some st else
  let afterProcess : Option (Nat × EngineState) :=
    match global_thread with
    | some g => some (g, st)
    | none =>
        match st.processes pid with
        | none => none
        | some process =>
            let is_main := process.main_thread_handle.isNone
            let pr := Profile.add_thread st.profile process.process_handle tid
                (st.timestamp_converter.convert_raw raw_ts) is_main
            let process' :=
              if is_main then { process with main_thread_handle := some pr.1 } else process
            some (pr.1, { st with profile := pr.2, processes := upd st.processes pid process' })
  match afterProcess with
  | none => none
  | some (handle, st₁) =>
      let thread := ThreadState.new handle tid
      let named :=
        match thread_name with
        | some name =>
            if name ≠ "" then
              ({ thread with merge_name := some name },
               if some handle ≠ global_thread then
                 Profile.set_thread_name st₁.profile handle name
               else
                 st₁.profile)
            else
              (thread, st₁.profile)
        | none => (thread, st₁.profile)
      some { st₁ with threads := upd st₁.threads tid named.1, profile := named.2 }

/-- `main.rs` lines 680-694 (`KernelTraceControl/ImageID/`): for a tracked
process or the kernel, record `(OriginalFileName, ImageSize, TimeDateStamp)`
in the `libs` map under the image base. -/
def imageIDHandler (st : EngineState) (pid image_base timeDateStamp image_size : Nat)
    (original_file_name : String) : EngineState :=
  if ¬ st.process_targets.contains pid ∧ pid ≠ 0 then st
  else
    { st with libs := upd st.libs image_base (original_file_name, image_size, timeDateStamp) }

/-- Rust `Path::file_name()`: the final path component (splitting on either
separator), `none` when there is none or it is `..`. -/
def fileNameOf (path : String) : Option String :=
  let comps := (path.split (fun c => c = '\\' || c = '/')).filter (fun s => s ≠ "")
  match comps.getLast? with
  | none => none
  | some l => if l = ".." then none else some l

/-- `main.rs` lines 695-730 (`KernelTraceControl/ImageID/DbgID_RSDS`): for a
tracked process or the kernel, index the `libs` map by the image base
(`libs[&image_base]` — `none` = panic if the base was never recorded), build
the partial `LibraryInfo`, and store it in the kernel pending map (pid 0) or
the process's pending map (`unwrap`: panic if the process record is absent). -/
def dbgIdRsdsHandler (st : EngineState) (pid image_base : Nat) (guid : GUIDm) (age : Nat)
    (pdb_path : String) : Option EngineState :=
  if ¬ st.process_targets.contains pid ∧ pid ≠ 0 then some st else
  match st.libs image_base with
  | none => none
  | some pit =>
      let path := pit.1
      let image_size := pit.2.1
      let timestamp := pit.2.2
      let code_id := some (timestamp, image_size)
      match fileNameOf path, fileNameOf pdb_path with
      | some name, some debug_name =>
          let info : LibraryInfo :=
            { name := name,
              debug_name := debug_name,
              path := path,
              code_id := code_id,
              symbol_table := none,
              debug_path := pdb_path,
              debug_id := (guid, age),
              arch := some "x86_64" }
          if pid = 0 then
            some { st with kernel_pending_libraries := upd st.kernel_pending_libraries image_base info }
          else
            match st.processes pid with
            | none => none
            | some process =>
                let process' := { process with pending_libraries := upd process.pending_libraries image_base info }
                some { st with processes := upd st.processes pid process' }
      | _, _ => none

/-- `main.rs` lines 731-775 (`MSNT_SystemTrace/Image/Load` and
`Image/DCStart`): for a tracked process or the kernel, remove the pending
partial library record under the image base (kernel map for pid 0, else the
process's map — `unwrap`: panic if the process record is absent). If no
record was pending the load is ignored. Otherwise the record's path is
replaced by the NT path prefixed with `\\?\GLOBALROOT`, the library is added
to the sink, and either a kernel-wide mapping over
`[image_base, image_base + image_size)` is added (pid 0) or an `Add` op for
that range is pushed onto the process's regular lib-mapping queue at the
event's raw timestamp. -/
def imageLoadHandler (st : EngineState) (raw_ts pid image_base image_size : Nat)
    (file_name : String) : Option EngineState :=
  if ¬ st.process_targets.contains pid ∧ pid ≠ 0 then some st else
  let path := "\\\\?\\GLOBALROOT" ++ file_name
  let removed : Option (Option LibraryInfo × EngineState) :=
    if pid = 0 then
      some (st.kernel_pending_libraries image_base,
            { st with kernel_pending_libraries := mapRemove st.kernel_pending_libraries image_base })
    else
      match st.processes pid with
      | none => none
      | some process =>
          let process' := { process with pending_libraries := mapRemove process.pending_libraries image_base }
          some (process.pending_libraries image_base,
                { st with processes := upd st.processes pid process' })
  match removed with
  | none => none
  | some (none, st₁) => some st₁
  | some (some info, st₁) =>
      let info' := { info with path := path }
      let al := Profile.add_lib st₁.profile info'
      let lib_handle := al.1
      let profile₁ := al.2
      if pid = 0 then
        let mappings := profile₁.kernel_lib_mappings ++ [(lib_handle, image_base, (image_base + image_size) % U64MOD, 0)]
        some { st₁ with profile := { profile₁ with kernel_lib_mappings := mappings } }
      else
        match st₁.processes pid with
        | none => none
        | some process =>
            let op := (raw_ts, LibMappingOp.Add image_base ((image_base + image_size) % U64MOD) 0 lib_handle)
            let process' := { process with regular_lib_mapping_ops := process.regular_lib_mapping_ops ++ [op] }
            some { st₁ with profile := profile₁, processes := upd st₁.processes pid process' }

/-- The label frame name chosen for samples on unknown threads
(`main.rs` lines 540-543 and 580-583). -/
def idleThreadLabel (tid : Nat) : String :=
  if tid = 0 then "Idle" else "Other"

/-- `main.rs` lines 527-566 (`MSNT_SystemTrace/PerfInfo/SampleProf`): the
sample counter is always incremented. For a known thread, any pending
off-CPU group and the accumulated cpu delta are taken from the context-switch
state and a pending stack is pushed. For an unknown thread, when `--idle`
is set and the global merge thread exists a synthetic labelled sample is
added to it; in every unknown-thread case the dropped counter is incremented
and all registries are left untouched. -/
def sampleProfHandler (include_idle : Bool) (global_thread : Option Nat)
    (st : EngineState) (raw_ts tid : Nat) : EngineState :=
  let st0 := { st with sample_count := st.sample_count + 1 }
  match st0.threads tid with
  | some thread =>
      let hs := handle_on_cpu_sample thread.context_switch_data
      let off_cpu_sample_group := hs.1
      let cd := consume_cpu_delta hs.2
      let cpu_delta := cd.1 * st0.timestamp_converter.raw_to_ns_factor % U64MOD
      let pending' := thread.pending_stacks ++ [⟨raw_ts, none, off_cpu_sample_group, some cpu_delta⟩]
      let thread' := { thread with context_switch_data := cd.2, pending_stacks := pending' }
      { st0 with threads := upd st0.threads tid thread' }
  | none =>
      let st1 :=
        if include_idle then
          match global_thread with
          | some g =>
              let profile' := st0.profile.add_sample g (st0.timestamp_converter.convert_raw raw_ts) (idleThreadLabel tid) 0 1
              { st0 with profile := profile' }
          | none => st0
        else
          st0
      { st1 with dropped_sample_count := st1.dropped_sample_count + 1 }

/-- `main.rs` lines 567-603 (`MSNT_SystemTrace/PageFault/DemandZeroFault`):
inert unless `--demand-zero-faults` is set; otherwise the same shape as the
sample-prof handler, pushing a pending stack with a fixed 1 ms cpu delta for
known threads and taking the identical unknown-thread path. -/
def demandZeroFaultHandler (demand_zero_faults include_idle : Bool)
    (global_thread : Option Nat) (st : EngineState) (raw_ts tid : Nat) : EngineState :=
  if ¬ demand_zero_faults then st else
  let st0 := { st with sample_count := st.sample_count + 1 }
  match st0.threads tid with
  | some thread =>
      let thread' := { thread with pending_stacks := thread.pending_stacks ++ [⟨raw_ts, none, none, some 1000000⟩] }
      { st0 with threads := upd st0.threads tid thread' }
  | none =>
      let st1 :=
        if include_idle then
          match global_thread with
          | some g =>
              let profile' := st0.profile.add_sample g (st0.timestamp_converter.convert_raw raw_ts) (idleThreadLabel tid) 0 1
              { st0 with profile := profile' }
          | none => st0
        else
          st0
      { st1 with dropped_sample_count := st1.dropped_sample_count + 1 }

/-! ## Claim theorems -/

/-- C5 (amended): `convert_raw` computes
`(r − reference_raw) · raw_to_ns_factor` with saturating subtraction and the
`u64` product reduced mod `2 ^ 64`; it sends `reference_raw` to `0`; and it
is monotonically non-decreasing on any range where the product does not
overflow `u64`. -/
theorem convert_raw_spec (c : TimestampConverter) (r : Nat) :
    (c.reference_raw ≤ r →
      c.convert_raw r = (r - c.reference_raw) * c.raw_to_ns_factor % U64MOD) ∧
    (r < c.reference_raw → c.convert_raw r = 0) ∧
    c.convert_raw c.reference_raw = 0 ∧
    (∀ r₂, r ≤ r₂ → (r₂ - c.reference_raw) * c.raw_to_ns_factor < U64MOD →
      c.convert_raw r ≤ c.convert_raw r₂) := by
  refine ⟨fun _ => rfl, ?_, ?_, ?_⟩
  · intro hlt
    unfold TimestampConverter.convert_raw
    rw [Nat.sub_eq_zero_of_le (Nat.le_of_lt hlt)]
    simp
  · unfold TimestampConverter.convert_raw
    simp
  · intro r₂ hle hov
    unfold TimestampConverter.convert_raw
    have h1 : (r - c.reference_raw) * c.raw_to_ns_factor ≤
        (r₂ - c.reference_raw) * c.raw_to_ns_factor :=
      Nat.mul_le_mul_right _ (Nat.sub_le_sub_right hle _)
    rw [Nat.mod_eq_of_lt (Nat.lt_of_le_of_lt h1 hov), Nat.mod_eq_of_lt hov]
    exact h1

/-- C5 witness: the amended theorem applied at the converter
`{reference_raw := 100, raw_to_ns_factor := 7}`. -/
theorem convert_raw_spec_witness :
    (TimestampConverter.mk 100 7).convert_raw 150 = (150 - 100) * 7 % U64MOD ∧
    (TimestampConverter.mk 100 7).convert_raw 50 = 0 ∧
    (TimestampConverter.mk 100 7).convert_raw 100 = 0 ∧
    (TimestampConverter.mk 100 7).convert_raw 150 ≤ (TimestampConverter.mk 100 7).convert_raw 200 :=
  ⟨(convert_raw_spec ⟨100, 7⟩ 150).1 (by decide),
   (convert_raw_spec ⟨100, 7⟩ 50).2.1 (by decide),
   (convert_raw_spec ⟨100, 7⟩ 100).2.2.1,
   (convert_raw_spec ⟨100, 7⟩ 150).2.2.2 200 (by decide) (by decide)⟩

/-- C5 counterexample: with `reference_raw = 0` and `raw_to_ns_factor = 2`
(a 500 MHz clock), the claimed exact value `(r − reference_raw) · factor`
and the claimed monotonicity both fail at `r = 2 ^ 63`, where the `u64`
product wraps to `0`: `convert_raw (2 ^ 62) = 2 ^ 63 > 0 = convert_raw (2 ^ 63)`. -/
theorem convert_raw_overflow_counterexample :
    (2 ^ 62 : Nat) ≤ 2 ^ 63 ∧
    (TimestampConverter.mk 0 2).convert_raw (2 ^ 63) = 0 ∧
    ((2 ^ 63 : Nat) - 0) * 2 ≠ 0 ∧
    ¬ (TimestampConverter.mk 0 2).convert_raw (2 ^ 62) ≤
        (TimestampConverter.mk 0 2).convert_raw (2 ^ 63) := by
  refine ⟨by norm_num, by decide, by decide, by decide⟩

/-- C4 (amended): every frame of a parsed stack carries the mode computed
from the FIRST frame's address at pointer size 8 (the handler hard-codes 8),
so a frame's mode is `Kernel` iff the first frame's address reaches
`0xFFFF_0000_0000_0000`; and `is_kernel_address` uses the cutoff `2 ^ 31`
for pointer size 4 and `0xFFFF_0000_0000_0000` for pointer size 8. -/
theorem frame_mode_kernel_iff (first : Nat) (rest : List Nat) (f : StackFrame)
    (hf : f ∈ parseStackFrames (first :: rest)) :
    (f.mode = StackMode.Kernel ↔ 0xFFFF000000000000 ≤ first) ∧
    (∀ a, is_kernel_address a 4 = true ↔ 2 ^ 31 ≤ a) ∧
    (∀ a, is_kernel_address a 8 = true ↔ 0xFFFF000000000000 ≤ a) := by
  refine ⟨?_, ?_, ?_⟩
  · have hmode : f.mode = stack_mode_for_address first 8 := by
      simp only [parseStackFrames, List.mem_cons, List.mem_map] at hf
      rcases hf with rfl | ⟨a, _, rfl⟩ <;> rfl
    rw [hmode]
    unfold stack_mode_for_address is_kernel_address
    by_cases h : (0xFFFF000000000000 : Nat) ≤ first
    · simp [h]
    · simp [h]
  · intro a; simp [is_kernel_address]
  · intro a; simp [is_kernel_address]

/-- C4 witness: the amended theorem applied to the two-frame stack
`[0xFFFF000000000000, 0x1000]`, whose second frame is kernel-mode. -/
theorem frame_mode_kernel_iff_witness :
    (StackFrame.ReturnAddress 4096 StackMode.Kernel).mode = StackMode.Kernel ↔
      (0xFFFF000000000000 : Nat) ≤ 0xFFFF000000000000 :=
  (frame_mode_kernel_iff 0xFFFF000000000000 [4096]
    (StackFrame.ReturnAddress 4096 StackMode.Kernel) (by decide)).1

/-- C4 counterexample: in the stack `[0xFFFF000000000000, 0x1000]` the
second frame's own address `0x1000` is below the kernel cutoff, yet the
parsed frame is tagged `Kernel`, because the source computes every
non-first frame's mode from the first frame's address. -/
theorem frame_mode_own_address_counterexample :
    parseStackFrames [0xFFFF000000000000, 4096] =
      [StackFrame.InstructionPointer 0xFFFF000000000000 StackMode.Kernel,
       StackFrame.ReturnAddress 4096 StackMode.Kernel] ∧
    is_kernel_address 4096 8 = false := by
  refine ⟨by decide, by decide⟩

/-- C3 (confirmed): a consumed pending-stack entry with an on-CPU cpu delta
and an attached kernel stack (and no off-CPU group) emits exactly one
sample, at the entry's trigger timestamp, with that delta and weight 1, and
its frame list is the kernel stack's frames followed by the user stack's
frames; the context-switch state is untouched. -/
theorem on_cpu_kernel_user_sample (raw_to_ns_factor : Nat) (csd : ThreadContextSwitchData)
    (userStack : List StackFrame) (p : PendingStack) (d : Nat) (ks : List StackFrame)
    (hoff : p.off_cpu_sample_group = none)
    (hon : p.on_cpu_sample_cpu_delta = some d)
    (hks : p.kernel_stack = some ks) :
    processPendingStack raw_to_ns_factor csd userStack p =
      (csd, [⟨p.timestamp, d, 1, ks ++ userStack⟩]) := by
  simp [processPendingStack, onCpuSamples, hoff, hon, hks]

/-- C3 witness: the theorem applied to a concrete entry with delta 42 and a
one-frame kernel stack over a one-frame user stack. -/
theorem on_cpu_kernel_user_sample_witness :
    processPendingStack 1 ⟨7, none⟩ [StackFrame.InstructionPointer 16 StackMode.User]
        ⟨10, some [StackFrame.InstructionPointer 99 StackMode.Kernel], none, some 42⟩ =
      (⟨7, none⟩, [⟨10, 42, 1,
        [StackFrame.InstructionPointer 99 StackMode.Kernel,
         StackFrame.InstructionPointer 16 StackMode.User]⟩]) :=
  on_cpu_kernel_user_sample 1 ⟨7, none⟩ [StackFrame.InstructionPointer 16 StackMode.User]
    ⟨10, some [StackFrame.InstructionPointer 99 StackMode.Kernel], none, some 42⟩
    42 [StackFrame.InstructionPointer 99 StackMode.Kernel] rfl rfl rfl

/-- C2 (amended): a consumed entry carrying an off-CPU group
`{begin, end, n}` zeroes the thread's accumulated cpu-tick total and emits,
for the group, exactly one sample at `begin` with the freshly consumed delta
(ticks · factor, as `u64`) and weight 1, plus — iff `n > 1` — one sample at
`end` with zero delta and weight `n − 1` when `n − 1` fits in an `i32` and
weight `0` otherwise; any further output of the entry comes from its on-CPU
part, not from the group. -/
theorem off_cpu_group_emission (raw_to_ns_factor : Nat) (csd : ThreadContextSwitchData)
    (userStack : List StackFrame) (p : PendingStack) (g : OffCpuSampleGroup)
    (hg : p.off_cpu_sample_group = some g) :
    (processPendingStack raw_to_ns_factor csd userStack p).1 =
      { csd with accumulated_on_cpu_ticks := 0 } ∧
    (processPendingStack raw_to_ns_factor csd userStack p).2 =
      (⟨g.begin_timestamp, csd.accumulated_on_cpu_ticks * raw_to_ns_factor % U64MOD, 1,
          userStack⟩ : Sample) ::
        ((if g.sample_count > 1 then
            [⟨g.end_timestamp, 0,
              (if g.sample_count - 1 ≤ I32MAX then (g.sample_count - 1 : Int) else 0),
              userStack⟩]
          else []) ++ onCpuSamples userStack p) := by
  unfold processPendingStack offCpuGroupSamples consume_cpu_delta
  rw [hg]
  by_cases h : g.sample_count > 1 <;> simp [h]

/-- C2 witness: the amended theorem applied to a concrete entry whose group
spans `[3, 5]` with `n = 4`, consuming 6 accumulated ticks at factor 100. -/
theorem off_cpu_group_emission_witness :
    (processPendingStack 100 ⟨6, none⟩ [] ⟨0, none, some ⟨3, 5, 4⟩, none⟩).1 =
      { (⟨6, none⟩ : ThreadContextSwitchData) with accumulated_on_cpu_ticks := 0 } ∧
    (processPendingStack 100 ⟨6, none⟩ [] ⟨0, none, some ⟨3, 5, 4⟩, none⟩).2 =
      (⟨3, 6 * 100 % U64MOD, 1, []⟩ : Sample) ::
        ((if (4 : Nat) > 1 then
            [⟨5, 0, (if (4 : Nat) - 1 ≤ I32MAX then ((4 : Nat) - 1 : Int) else 0), []⟩]
          else []) ++ onCpuSamples [] ⟨0, none, some ⟨3, 5, 4⟩, none⟩) :=
  off_cpu_group_emission 100 ⟨6, none⟩ [] ⟨0, none, some ⟨3, 5, 4⟩, none⟩ ⟨3, 5, 4⟩ rfl

/-- C2 counterexample: for the group `{begin = 3, end = 5, n = 2 ^ 31 + 1}`
the rest sample is emitted with weight `0`, not the claimed
`n − 1 = 2 ^ 31`, because `i32::try_from(n - 1).unwrap_or(0)` saturates to
zero when `n − 1` exceeds `i32::MAX`. -/
theorem off_cpu_rest_weight_counterexample :
    (processPendingStack 1 ⟨0, none⟩ [] ⟨0, none, some ⟨3, 5, 2147483649⟩, none⟩).2 =
      [⟨3, 0, 1, []⟩, ⟨5, 0, 0, []⟩] ∧
    ((0 : Int) ≠ 2147483649 - 1) := by
  refine ⟨by decide, by decide⟩

/-- C1 (confirmed): when a thread's pending-stack queue has non-decreasing
trigger timestamps, the user-stack consumption loop pops from the front
exactly the entries with `trigger_timestamp ≤ T'` — in insertion (FIFO)
order, since the consumed list is the order-preserving filter of the queue —
and leaves exactly the entries with `trigger_timestamp > T'` queued. -/
theorem consume_pending_fifo (raw_to_ns_factor eventTimestamp : Nat)
    (userStack : List StackFrame) (q : List PendingStack) (csd : ThreadContextSwitchData)
    (hq : List.Pairwise (fun a b => a.timestamp ≤ b.timestamp) q) :
    (consumePendingStacks raw_to_ns_factor userStack eventTimestamp q csd).1 =
      q.filter (fun p => decide (p.timestamp ≤ eventTimestamp)) ∧
    (consumePendingStacks raw_to_ns_factor userStack eventTimestamp q csd).2.1 =
      q.filter (fun p => decide (eventTimestamp < p.timestamp)) := by
  induction q generalizing csd with
  | nil => simp [consumePendingStacks]
  | cons p rest ih =>
      rw [List.pairwise_cons] at hq
      by_cases hp : p.timestamp ≤ eventTimestamp
      · have hrec := ih (processPendingStack raw_to_ns_factor csd userStack p).1 hq.2
        simp only [consumePendingStacks, if_pos hp]
        refine ⟨?_, ?_⟩
        · rw [List.filter_cons_of_pos (by simpa using hp)]
          simpa using hrec.1
        · rw [List.filter_cons_of_neg (by simpa using Nat.not_lt.mpr hp)]
          simpa using hrec.2
      · have hall : ∀ x ∈ rest, eventTimestamp < x.timestamp := by
          intro x hx
          have := hq.1 x hx
          omega
        simp only [consumePendingStacks, if_neg hp]
        refine ⟨?_, ?_⟩
        · rw [List.filter_cons_of_neg (by simpa using hp)]
          symm
          rw [List.filter_eq_nil_iff]
          intro x hx
          simp only [decide_eq_true_eq]
          exact Nat.not_le.mpr (hall x hx)
        · rw [List.filter_cons_of_pos (by simpa using Nat.not_le.mp hp)]
          congr 1
          symm
          rw [List.filter_eq_self]
          intro x hx
          simpa using hall x hx

/-- C1 witness: the theorem applied to a concrete sorted three-entry queue
with timestamps 1, 2, 5 and event timestamp 3: the first two entries are
consumed in order, the third stays queued. -/
theorem consume_pending_fifo_witness :
    (consumePendingStacks 1 [] 3
        [⟨1, none, none, some 5⟩, ⟨2, none, none, none⟩, ⟨5, none, none, none⟩]
        ⟨0, none⟩).1 =
      ([⟨1, none, none, some 5⟩, ⟨2, none, none, none⟩, ⟨5, none, none, none⟩] :
          List PendingStack).filter (fun p => decide (p.timestamp ≤ 3)) ∧
    (consumePendingStacks 1 [] 3
        [⟨1, none, none, some 5⟩, ⟨2, none, none, none⟩, ⟨5, none, none, none⟩]
        ⟨0, none⟩).2.1 =
      ([⟨1, none, none, some 5⟩, ⟨2, none, none, none⟩, ⟨5, none, none, none⟩] :
          List PendingStack).filter (fun p => decide (3 < p.timestamp)) :=
  consume_pending_fifo 1 3 []
    [⟨1, none, none, some 5⟩, ⟨2, none, none, none⟩, ⟨5, none, none, none⟩]
    ⟨0, none⟩ (by simp)

/-- C6 (confirmed): in non-merge mode, the first thread-start for a tracked
process whose record has no main thread yet adds the thread as main and
installs its fresh handle as the process's main-thread handle; and once a
process has a main-thread handle, any later thread-start (in any mode)
leaves that handle intact and adds only non-main threads. -/
theorem thread_start_main_election (st : EngineState) (raw_ts tid pid : Nat)
    (nm : Option String) (process : ProcessState) :
    (st.process_targets.contains pid = true →
      st.processes pid = some process →
      process.main_thread_handle = none →
      ((threadStartHandler none st raw_ts tid pid nm).bind (fun s => s.processes pid)) =
        some { process with main_thread_handle := some st.profile.next_handle } ∧
      ((threadStartHandler none st raw_ts tid pid nm).map (fun s => s.profile.added_threads)) =
        some (st.profile.added_threads ++
          [⟨st.profile.next_handle, process.process_handle, tid,
            st.timestamp_converter.convert_raw raw_ts, true⟩])) ∧
    (∀ g h₀, st.processes pid = some process →
      process.main_thread_handle = some h₀ →
      ∀ st', threadStartHandler g st raw_ts tid pid nm = some st' →
        (st'.processes pid).map ProcessState.main_thread_handle = some (some h₀) ∧
        ∀ t ∈ st'.profile.added_threads.drop st.profile.added_threads.length,
          t.is_main = false) := by
  constructor
  · intro hc hproc hmain
    have hmem : pid ∈ st.process_targets := by simpa using hc
    have hiso : process.main_thread_handle.isNone = true := by simp [hmain]
    cases nm with
    | none =>
        simp [threadStartHandler, hmem, hproc, hiso, upd, Profile.add_thread]
    | some name =>
        by_cases hname : name = "" <;>
          simp [threadStartHandler, hmem, hproc, hiso, upd, Profile.add_thread,
            Profile.set_thread_name, hname]
  · intro g h₀ hproc hmain st' hst'
    have hiso : process.main_thread_handle.isNone = false := by simp [hmain]
    by_cases hc : st.process_targets.contains pid = true
    · have hmem : pid ∈ st.process_targets := by simpa using hc
      cases g with
      | some gt =>
          cases nm with
          | none =>
              simp [threadStartHandler, hmem] at hst'
              subst hst'
              exact ⟨by simp [hproc, hmain], by simp [List.drop_length]⟩
          | some name =>
              by_cases hname : name = ""
              · simp [threadStartHandler, hmem, hname] at hst'
                subst hst'
                exact ⟨by simp [hproc, hmain], by simp [List.drop_length]⟩
              · simp [threadStartHandler, hmem, hname, Profile.set_thread_name] at hst'
                subst hst'
                exact ⟨by simp [hproc, hmain], by simp [List.drop_length]⟩
      | none =>
          cases nm with
          | none =>
              simp [threadStartHandler, hmem, hproc, hiso, Profile.add_thread] at hst'
              subst hst'
              refine ⟨by simp [upd, hmain], ?_⟩
              intro t ht
              rw [List.drop_left] at ht
              simp at ht
              subst ht
              rfl
          | some name =>
              by_cases hname : name = ""
              · simp [threadStartHandler, hmem, hproc, hiso, Profile.add_thread, hname] at hst'
                subst hst'
                refine ⟨by simp [upd, hmain], ?_⟩
                intro t ht
                rw [List.drop_left] at ht
                simp at ht
                subst ht
                rfl
              · simp [threadStartHandler, hmem, hproc, hiso, Profile.add_thread,
                  Profile.set_thread_name, hname] at hst'
                subst hst'
                refine ⟨by simp [upd, hmain], ?_⟩
                intro t ht
                rw [List.drop_left] at ht
                simp at ht
                subst ht
                rfl
    · have hmem : pid ∉ st.process_targets := by simpa using hc
      simp [threadStartHandler, hmem] at hst'
      subst hst'
      exact ⟨by simp [hproc, hmain], by simp [List.drop_length]⟩

/-- A concrete engine state for the C6 witness: pid 42 is targeted and has a
process record with no main thread yet. -/
def electionStateA : EngineState :=
  { initialEngineState [42] Profile.empty with
      processes := upd (fun _ => none) 42 (ProcessState.new 5) }

/-- A concrete engine state for the C6 witness: pid 42 is targeted and its
process record already has main-thread handle 3. -/
def electionStateB : EngineState :=
  { initialEngineState [42] Profile.empty with
      processes := upd (fun _ => none) 42
        { ProcessState.new 5 with main_thread_handle := some 3 } }

/-- C6 witness: the theorem applied at the two concrete states: the first
thread-start installs handle 0 as main; with main handle 3 already set, a
merge-mode thread-start leaves it at 3. -/
theorem thread_start_main_election_witness :
    ((threadStartHandler none electionStateA 11 7 42 none).bind (fun s => s.processes 42)) =
      some { ProcessState.new 5 with main_thread_handle := some 0 } ∧
    ((threadStartHandler (some 9) electionStateB 11 7 42 none).bind
        (fun s => s.processes 42)).map ProcessState.main_thread_handle = some (some 3) := by
  constructor
  · exact ((thread_start_main_election electionStateA 11 7 42 none
      (ProcessState.new 5)).1 rfl rfl rfl).1
  · obtain ⟨v, hv⟩ :
        ∃ v, threadStartHandler (some 9) electionStateB 11 7 42 none = some v := ⟨_, rfl⟩
    have h2 := (thread_start_main_election electionStateB 11 7 42 none
      { ProcessState.new 5 with main_thread_handle := some 3 }).2 (some 9) 3 rfl rfl v hv
    rw [hv]
    simpa using h2.1

/-- C7 (confirmed): on `Image/Load` for a tracked process or the kernel, the
pending partial-library record under the image base is removed; when no
record is pending the load is ignored (no lib added, no mapping or op
pushed); when a record is pending it is materialized with its path replaced
by `\\?\GLOBALROOT` plus the NT path, and `pid = 0` adds a kernel-wide
mapping over `[image_base, image_base + image_size)` while `pid ≠ 0` pushes
an `Add` op for that range at the event's raw timestamp onto the process's
regular lib-mapping queue. (Hypothesis `hsize` rules out `u64` wrap-around
of `image_base + image_size`.) -/
theorem image_load_materialization (st : EngineState) (raw_ts pid image_base image_size : Nat)
    (file_name : String) (process : ProcessState)
    (htrack : st.process_targets.contains pid = true ∨ pid = 0)
    (hproc : pid ≠ 0 → st.processes pid = some process)
    (hsize : image_base + image_size < U64MOD) :
    ∃ st', imageLoadHandler st raw_ts pid image_base image_size file_name = some st' ∧
      ((if pid = 0 then st.kernel_pending_libraries image_base
        else process.pending_libraries image_base) = none →
        st'.profile.added_libs = st.profile.added_libs ∧
        st'.profile.kernel_lib_mappings = st.profile.kernel_lib_mappings ∧
        (pid ≠ 0 → ∃ process', st'.processes pid = some process' ∧
          process'.regular_lib_mapping_ops = process.regular_lib_mapping_ops ∧
          process'.pending_libraries image_base = none) ∧
        (pid = 0 → st'.kernel_pending_libraries image_base = none)) ∧
      (∀ info, (if pid = 0 then st.kernel_pending_libraries image_base
                else process.pending_libraries image_base) = some info →
        st'.profile.added_libs = st.profile.added_libs ++
          [(st.profile.next_handle, { info with path := "\\\\?\\GLOBALROOT" ++ file_name })] ∧
        (pid = 0 →
          st'.kernel_pending_libraries image_base = none ∧
          st'.profile.kernel_lib_mappings = st.profile.kernel_lib_mappings ++
            [(st.profile.next_handle, image_base, image_base + image_size, 0)]) ∧
        (pid ≠ 0 → ∃ process', st'.processes pid = some process' ∧
          process'.pending_libraries image_base = none ∧
          process'.regular_lib_mapping_ops = process.regular_lib_mapping_ops ++
            [(raw_ts, LibMappingOp.Add image_base (image_base + image_size) 0
                st.profile.next_handle)] ∧
          st'.profile.kernel_lib_mappings = st.profile.kernel_lib_mappings)) := by
  have hmod : (image_base + image_size) % U64MOD = image_base + image_size :=
    Nat.mod_eq_of_lt hsize
  by_cases hpid : pid = 0
  · subst hpid
    cases hk : st.kernel_pending_libraries image_base with
    | none =>
        refine ⟨_, by simp [imageLoadHandler, hk]; rfl, ?_, ?_⟩
        · intro _
          refine ⟨rfl, rfl, fun h => absurd rfl h, fun _ => ?_⟩
          simp [mapRemove]
        · intro info hinfo
          rw [if_pos rfl] at hinfo
          exact absurd hinfo (by simp)
    | some info₀ =>
        refine ⟨_, by simp [imageLoadHandler, hk, Profile.add_lib]; rfl, ?_, ?_⟩
        · intro habs
          rw [if_pos rfl] at habs
          exact absurd habs (by simp)
        · intro info hinfo
          rw [if_pos rfl] at hinfo
          cases hinfo
          refine ⟨by simp [Profile.add_lib], fun _ => ⟨by simp [mapRemove], ?_⟩,
            fun h => absurd rfl h⟩
          simp [Profile.add_lib, hmod]
  · have hc : st.process_targets.contains pid = true := htrack.resolve_right hpid
    have hmem : pid ∈ st.process_targets := by simpa using hc
    have hp := hproc hpid
    cases hk : process.pending_libraries image_base with
    | none =>
        refine ⟨_, by simp [imageLoadHandler, hmem, hpid, hp, hk]; rfl, ?_, ?_⟩
        · intro _
          refine ⟨rfl, rfl, fun _ =>
            ⟨{ process with pending_libraries := mapRemove process.pending_libraries image_base },
              by simp [upd], rfl, by simp [mapRemove]⟩,
            fun h => absurd h hpid⟩
        · intro info hinfo
          rw [if_neg hpid] at hinfo
          exact absurd hinfo (by simp)
    | some info₀ =>
        refine ⟨_, by simp [imageLoadHandler, hmem, hpid, hp, hk, upd, Profile.add_lib]; rfl, ?_, ?_⟩
        · intro habs
          rw [if_neg hpid] at habs
          exact absurd habs (by simp)
        · intro info hinfo
          rw [if_neg hpid] at hinfo
          cases hinfo
          refine ⟨by simp [Profile.add_lib], fun h => absurd h hpid, fun _ => ?_⟩
          refine ⟨{ process with
              pending_libraries := mapRemove process.pending_libraries image_base,
              regular_lib_mapping_ops := process.regular_lib_mapping_ops ++
                [(raw_ts, LibMappingOp.Add image_base ((image_base + image_size) % U64MOD) 0
                    st.profile.next_handle)] },
            by simp [upd], by simp [mapRemove], by rw [hmod], by simp [Profile.add_lib]⟩

/-- A concrete partial library record for the C7 witness. -/
def imageLoadInfoEx : LibraryInfo :=
  { name := "ntoskrnl.exe",
    debug_name := "ntkrnlmp.pdb",
    path := "ntoskrnl.exe",
    code_id := some (7, 4096),
    symbol_table := none,
    debug_path := "ntkrnlmp.pdb",
    debug_id := (⟨1, 2, 3, [4, 5, 6, 7, 8, 9, 10, 11]⟩, 1),
    arch := some "x86_64" }

/-- A concrete engine state for the C7 witness: a kernel partial library
record is pending under image base 256. -/
def imageLoadStateC : EngineState :=
  { initialEngineState [] Profile.empty with
      kernel_pending_libraries := upd (fun _ => none) 256 imageLoadInfoEx }

/-- C7 witness: the theorem applied at the kernel load of base 256 and size
4096: the pending record is removed and a kernel mapping over
`[256, 4352)` is added. -/
theorem image_load_materialization_witness :
    ∃ st', imageLoadHandler imageLoadStateC 77 0 256 4096 "\\Windows\\ntoskrnl.exe" = some st' ∧
      st'.kernel_pending_libraries 256 = none ∧
      st'.profile.kernel_lib_mappings = [(0, 256, 4352, 0)] := by
  obtain ⟨st', hrun, _, hsome⟩ := image_load_materialization imageLoadStateC 77 0 256 4096
    "\\Windows\\ntoskrnl.exe" (ProcessState.new 0) (Or.inr rfl) (fun h => absurd rfl h)
    (by decide)
  have h2 := hsome imageLoadInfoEx rfl
  exact ⟨st', hrun, (h2.2.1 rfl).1, by simpa using (h2.2.1 rfl).2⟩

/-- C8 (confirmed): with a numeric pid selector (`process_target_name` is
`none`) and `--merge-threads` unset (no global thread or process), the
`Process/Start` handler never creates a process record, so after any prefix
of process-start events the first `Thread/Start` for the target pid hits
`processes.get_mut(&process_id).unwrap()` on an absent record and panics
(`none`) instead of skipping the event or enrolling the process. -/
theorem numeric_pid_thread_start_panics (pidText : String) (pid : Nat)
    (hsel : parseProcessSelector pidText = ([pid], none))
    (prior : List (Nat × Nat × String)) (raw_ts tid : Nat) (nm : Option String) :
    initGlobals false Profile.empty = (none, none, Profile.empty) ∧
    threadStartHandler none
      (prior.foldl (fun s ev => processStartHandler none none s ev.1 ev.2.1 ev.2.2)
        (initialEngineState [pid] Profile.empty))
      raw_ts tid pid nm = none := by
  refine ⟨rfl, ?_⟩
  have hfold : prior.foldl (fun s ev => processStartHandler none none s ev.1 ev.2.1 ev.2.2)
      (initialEngineState [pid] Profile.empty) = initialEngineState [pid] Profile.empty := by
    induction prior with
    | nil => rfl
    | cons e rest ih => exact ih
  rw [hfold]
  simp [threadStartHandler, initialEngineState]

/-- C8 witness: the theorem applied at pid text "4532" with an empty prefix:
the very first thread-start for pid 4532 panics. -/
theorem numeric_pid_thread_start_panics_witness :
    parseProcessSelector "4532" = ([4532], none) ∧
    threadStartHandler none (initialEngineState [4532] Profile.empty)
      7369515373 17524 4532 none = none :=
  ⟨by decide,
   (numeric_pid_thread_start_panics "4532" 4532 (by decide) [] 7369515373 17524 none).2⟩

/-- C9 (confirmed): a `DbgID_RSDS` event for a tracked process (or process
0) whose image base was never recorded in the `libs` map by a
`KernelTraceControl/ImageID` event makes the handler panic (`none`, the
`libs[&image_base]` index) instead of logging and skipping the event. -/
theorem dbgid_rsds_unrecorded_base_panics (st : EngineState) (pid image_base : Nat)
    (guid : GUIDm) (age : Nat) (pdb_path : String)
    (htrack : st.process_targets.contains pid = true ∨ pid = 0)
    (hbase : st.libs image_base = none) :
    dbgIdRsdsHandler st pid image_base guid age pdb_path = none := by
  have hguard : ¬ (¬ st.process_targets.contains pid = true ∧ pid ≠ 0) := by
    rintro ⟨hnc, hnz⟩
    rcases htrack with h | h
    · exact hnc h
    · exact hnz h
  simp only [dbgIdRsdsHandler, hbase]
  rw [if_neg (by simpa using hguard)]

/-- C9 witness: the theorem applied to a tracked pid 3 and image base 4096
with an empty `libs` map. -/
theorem dbgid_rsds_unrecorded_base_panics_witness :
    dbgIdRsdsHandler (initialEngineState [3] Profile.empty) 3 4096 ⟨1, 2, 3, [4]⟩ 1
      "a.pdb" = none :=
  dbgid_rsds_unrecorded_base_panics (initialEngineState [3] Profile.empty) 3 4096
    ⟨1, 2, 3, [4]⟩ 1 "a.pdb" (Or.inl (by rfl)) rfl

/-- C10 (amended): the global merge thread exists iff `--merge-threads` is
set; an unknown-thread `SampleProf` (or enabled `DemandZeroFault`) event
adds a synthetic labelled sample to the global thread iff `--idle` is set
and the global thread exists, leaves the thread and process registries (and
hence all pending stacks) untouched, and increments BOTH the sample counter
and the dropped-sample counter; the enabled `DemandZeroFault` handler's
unknown-thread path is literally the `SampleProf` one. -/
theorem unknown_thread_sample_handling (include_idle demand_zero_faults : Bool)
    (global_thread : Option Nat) (st : EngineState) (raw_ts tid : Nat)
    (hunknown : st.threads tid = none) (hdzf : demand_zero_faults = true) :
    (∀ merge_threads : Bool, (initGlobals merge_threads Profile.empty).1.isSome = merge_threads) ∧
    (sampleProfHandler include_idle global_thread st raw_ts tid).profile.samples =
      st.profile.samples ++
        (if include_idle then
          global_thread.elim []
            (fun g => [⟨g, st.timestamp_converter.convert_raw raw_ts, idleThreadLabel tid, 0, 1⟩])
        else []) ∧
    (sampleProfHandler include_idle global_thread st raw_ts tid).threads = st.threads ∧
    (sampleProfHandler include_idle global_thread st raw_ts tid).processes = st.processes ∧
    (sampleProfHandler include_idle global_thread st raw_ts tid).dropped_sample_count =
      st.dropped_sample_count + 1 ∧
    (sampleProfHandler include_idle global_thread st raw_ts tid).sample_count =
      st.sample_count + 1 ∧
    demandZeroFaultHandler demand_zero_faults include_idle global_thread st raw_ts tid =
      sampleProfHandler include_idle global_thread st raw_ts tid := by
  subst hdzf
  refine ⟨fun m => by cases m <;> rfl, ?_⟩
  cases include_idle <;> cases global_thread <;>
    simp [sampleProfHandler, demandZeroFaultHandler, hunknown, Profile.add_sample]

/-- C10 witness: the amended theorem applied with `--idle` set, a global
thread handle 0, and the empty initial state. -/
theorem unknown_thread_sample_handling_witness :
    (sampleProfHandler true (some 0) (initialEngineState [] Profile.empty) 5 0).sample_count =
      0 + 1 ∧
    (sampleProfHandler true (some 0) (initialEngineState [] Profile.empty) 5 0).dropped_sample_count =
      0 + 1 ∧
    demandZeroFaultHandler true true (some 0) (initialEngineState [] Profile.empty) 5 0 =
      sampleProfHandler true (some 0) (initialEngineState [] Profile.empty) 5 0 := by
  have h := unknown_thread_sample_handling true true (some 0)
    (initialEngineState [] Profile.empty) 5 0 rfl rfl
  exact ⟨h.2.2.2.2.2.1, h.2.2.2.2.1, h.2.2.2.2.2.2⟩

/-- C10 counterexample: with neither `--idle` nor `--merge-threads`, an
unknown-thread `SampleProf` event does not "only increment the
dropped-sample counter": the sample counter is incremented too
(`main.rs` line 532 runs before the thread lookup), going from 0 to 1 here. -/
theorem unknown_thread_sample_count_counterexample :
    (sampleProfHandler false none (initialEngineState [] Profile.empty) 5 7).sample_count = 1 ∧
    (initialEngineState [] Profile.empty).sample_count = 0 ∧ (1 : Nat) ≠ 0 :=
  ⟨rfl, rfl, by decide⟩
